import Mathlib

/-!
Verification of the OpenWebUI desktop client's session and message-exchange
logic. The repository contains three variants of the renderer component:

* variant 1 (`src/renderer/App.tsx`, first copy): API-key auth, model
  discovery via `GET /models`, chat via `POST /chat/completions`;
* variant 2 (`src/renderer/App.tsx`, second copy): API-key auth, history via
  `GET /chats`, chat via `POST /message`;
* variant 3 (`unnamed/part_000`): username/password login, history via
  `GET /api/chats`, chat via `POST /api/message`.

Each network-facing handler is embedded as a pure function from the component
state and an explicit HTTP outcome to the next state; JavaScript truthiness on
optional string fields is modelled explicitly.
-/

namespace OWUI

/-- A chat message as held in component state (`ChatMessage` in the source).
The source types `role` as a union of the string literals user/assistant, but
server-supplied data flows in unchecked, so we keep it a plain string. -/
structure ChatMessage where
  id : String
  text : String
  role : String
deriving DecidableEq, Repr

/-- An HTTP response as observed by the handlers: status code, content-type
header (empty string when the header is missing, mirroring `|| ''`), the body
parsed as JSON (`none` when `res.json()` would throw), and the raw text body. -/
structure HttpResponse (β : Type) where
  status : Nat
  contentType : String
  body : Option β
  rawText : String
deriving DecidableEq, Repr

/-- Outcome of a `fetch` call: `Except.error ()` models a transport failure
(the promise rejecting), `Except.ok` a delivered response. -/
def FetchOutcome (β : Type) := Except Unit (HttpResponse β)

/-- JavaScript truthiness of an optional string field: `undefined`/missing and
the empty string are falsy, every other string is truthy. -/
def truthy : Option String → Bool
  | none => false
  | some s => !(s == "")

/-- JavaScript `a || dflt` on an optional string field with a string default. -/
def jsOrD (a : Option String) (dflt : String) : String :=
  match a with
  | none => dflt
  | some s => if s == "" then dflt else s

/-- JavaScript `a || b` on two optional string fields (the result is `none`
when both are falsy, as in `first.id || first.name || null`). -/
def jsOr (a b : Option String) : Option String :=
  if truthy a then a else if truthy b then b else none

/-- `res.ok`: the HTTP status lies in the 2xx range. -/
def isOk (status : Nat) : Bool := 200 ≤ status && status ≤ 299

/-- A whitespace character as removed by JavaScript's `String.prototype.trim`
(restricted to the ASCII whitespace the client can realistically see). -/
def isWsChar (c : Char) : Bool := c == ' ' || c == '\t' || c == '\n' || c == '\r'

/-- `s.trim()`: strip leading and trailing whitespace. -/
def jsTrim (s : String) : String :=
  String.mk ((((s.toList.dropWhile isWsChar).reverse.dropWhile isWsChar).reverse))

/-- Whether `pat` occurs as a contiguous sublist of `l`. -/
def containsSub (l pat : List Char) : Bool :=
  match l with
  | [] => pat.isEmpty
  | _ :: t => pat.isPrefixOf l || containsSub t pat

/-- `s.includes pat` on strings. -/
def containsSubstr (s pat : String) : Bool := containsSub s.toList pat.toList

/-- The content-type check `contentType.includes('application/json')`. -/
def isJsonContentType (ct : String) : Bool := containsSubstr ct "application/json"

/-- The success gate used by variants 1 and 2:
`res.ok && contentType.includes('application/json')`. -/
def okAndJson {β : Type} (r : HttpResponse β) : Bool :=
  isOk r.status && isJsonContentType r.contentType

/-- `s.endsWith suffix` on strings. -/
def endsWithStr (s suf : String) : Bool := suf.toList.isSuffixOf s.toList

/-- `serverUrl.replace(/\/+$/, '')`: remove all trailing slash characters. -/
def dropTrailingSlashes (s : String) : String :=
  String.mk ((s.toList.reverse.dropWhile (fun c => c == '/')).reverse)

/-- `getApiBase` from variants 1 and 2: strip trailing slashes, then append
`/api` unless the result already ends in `/api`. -/
def getApiBase (serverUrl : String) : String :=
  let trimmed := dropTrailingSlashes serverUrl
  if endsWithStr trimmed "/api" then trimmed else trimmed ++ "/api"

/-- The history URL built by variant 3: `${serverUrl}/api/chats`, with no
normalization of the server URL. -/
def historyUrlV3 (serverUrl : String) : String := serverUrl ++ "/api/chats"

/-! ### Variant 1: model discovery (`fetchFirstModel`) -/

/-- One entry of the `data.models` array; the code only reads `id` and `name`. -/
structure ModelEntry where
  id : Option String
  name : Option String
deriving DecidableEq, Repr

/-- The parsed body of the `GET {base}/models` response. -/
structure ModelsBody where
  models : Option (List ModelEntry)
deriving DecidableEq, Repr

/-- `fetchFirstModel` of variant 1. Returns the discovered model identifier
(or `none`) paired with the raw text captured by `console.warn` on a
non-2xx / non-JSON response (`none` when no text was captured). -/
def fetchFirstModel (token : Option String) (res : FetchOutcome ModelsBody) :
    Option String × Option String :=
  match token with
  | none => (none, none)
  | some _ =>
    match res with
    | Except.error _ => (none, none)
    | Except.ok r =>
      if okAndJson r then
        match r.body with
        | none => (none, none)
        | some data =>
          match data.models with
          | some (first :: _) => (jsOr first.id first.name, none)
          | _ => (none, none)
      else (none, some r.rawText)

/-! ### Component state and credential store -/

/-- The two `localStorage` entries the client uses, under the fixed key names
`serverUrl` and `apiKey`; `none` means the key was never written. -/
structure LocalStorage where
  serverUrl : Option String
  apiKey : Option String
deriving DecidableEq, Repr

/-- Component state of variant 1 (`useState` fields of the first `App`). -/
structure AppStateV1 where
  serverUrl : String
  apiKey : String
  token : Option String
  model : Option String
  messages : List ChatMessage
  currentMsg : String
  error : Option String
deriving DecidableEq, Repr

/-- Component state of variant 2 (no `model` field). -/
structure AppStateV2 where
  serverUrl : String
  apiKey : String
  token : Option String
  messages : List ChatMessage
  currentMsg : String
  error : Option String
deriving DecidableEq, Repr

/-- Component state of variant 3 (login form instead of API key). -/
structure AppStateV3 where
  serverUrl : String
  username : String
  password : String
  token : Option String
  messages : List ChatMessage
  currentMsg : String
  error : Option String
deriving DecidableEq, Repr

/-- The mount effect of variant 1: read both `localStorage` entries with an
empty-string default, copy them into state when truthy, and set the token from
a saved API key. -/
def mountLoad (ls : LocalStorage) (st : AppStateV1) : AppStateV1 :=
  let savedUrl := ls.serverUrl.getD ""
  let savedKey := ls.apiKey.getD ""
  let st1 := if savedUrl == "" then st else { st with serverUrl := savedUrl }
  if savedKey == "" then st1
  else { st1 with apiKey := savedKey, token := some savedKey }

/-- The pair of values a subsequent load observes: each `localStorage.getItem`
call with its `|| ''` default. -/
def loadCredentials (ls : LocalStorage) : String × String :=
  (ls.serverUrl.getD "", ls.apiKey.getD "")

/-- `connect` of variant 1: clear the error, trim both inputs, reject when
either trims to empty, otherwise persist the trimmed values and set the
token. Returns the updated store and state. -/
def connect (ls : LocalStorage) (st : AppStateV1) : LocalStorage × AppStateV1 :=
  let st0 := { st with error := none }
  let url := jsTrim st.serverUrl
  let key := jsTrim st.apiKey
  if url == "" || key == "" then
    (ls, { st0 with error := some "Server URL and API key required" })
  else
    ({ ls with serverUrl := some url, apiKey := some key },
     { st0 with token := some key })

/-- `connect` of variant 2; the logic is the same as variant 1's, acting on
the variant 2 state. -/
def connectV2 (ls : LocalStorage) (st : AppStateV2) : LocalStorage × AppStateV2 :=
  let st0 := { st with error := none }
  let key := jsTrim st.apiKey
  let url := jsTrim st.serverUrl
  if key == "" || url == "" then
    (ls, { st0 with error := some "Server URL and API key required" })
  else
    ({ ls with serverUrl := some url, apiKey := some key },
     { st0 with token := some key })

/-! ### Variant 1: setup effect (model discovery on credential change) -/

/-- The synchronous head of variant 1's `[token, serverUrl]` effect, run
before `fetchFirstModel` is awaited: when a token is present, clear the error
and clear the conversation. -/
def setupV1Begin (st : AppStateV1) : AppStateV1 :=
  match st.token with
  | none => st
  | some _ => { st with error := none, messages := [] }

/-- The continuation of variant 1's setup effect once `fetchFirstModel` has
resolved with `mdl`. -/
def setupV1Resolve (st : AppStateV1) (mdl : Option String) : AppStateV1 :=
  match mdl with
  | some m => { st with model := some m }
  | none => { st with model := none, error := some "Failed to retrieve models" }

/-- The whole setup effect of variant 1: a no-op without a token, otherwise
the begin phase followed by resolution of the model-discovery call. -/
def setupV1 (st : AppStateV1) (res : FetchOutcome ModelsBody) : AppStateV1 :=
  match st.token with
  | none => st
  | some _ =>
    let st1 := setupV1Begin st
    setupV1Resolve st1 (fetchFirstModel st.token res).1

/-! ### Variant 1: sendMessage (`POST {base}/chat/completions`) -/

/-- The fields the code reads from `choices[0].message` / `choices[0].delta`. -/
structure ChoicePart where
  content : Option String
deriving DecidableEq, Repr

/-- One entry of the `data.choices` array. -/
structure Choice where
  message : Option ChoicePart
  delta : Option ChoicePart
deriving DecidableEq, Repr

/-- One entry of a `data.messages` array in a send response; the code reads
`id`, `content`, `text` and `role`. -/
structure RespMessage where
  id : Option String
  content : Option String
  text : Option String
  role : Option String
deriving DecidableEq, Repr

/-- The parsed body of a `POST {base}/chat/completions` response. -/
structure ChatCompletionBody where
  choices : Option (List Choice)
  messages : Option (List RespMessage)
deriving DecidableEq, Repr

/-- `data.choices[0].message?.content || data.choices[0].delta?.content || ''`. -/
def replyOf (c : Choice) : String :=
  jsOrD (c.message.bind ChoicePart.content) (jsOrD (c.delta.bind ChoicePart.content) "")

/-- The filter applied to a `data.messages` array in variant 1:
`msg.role && msg.role !== 'user'`. -/
def keepNonUser (m : RespMessage) : Bool :=
  truthy m.role && !(m.role == some "user")

/-- The mapping applied to a kept `data.messages` entry in variant 1. -/
def toAssistantMsgV1 (now : String) (m : RespMessage) : ChatMessage :=
  { id := jsOrD m.id (now ++ "-a"),
    text := jsOrD m.content (jsOrD m.text ""),
    role := jsOrD m.role "assistant" }

/-- The request payload of variant 1's send: target URL, model identifier and
the conversation array of (role, content) pairs. -/
structure SendPayload where
  url : String
  model : String
  conversation : List (String × String)
deriving DecidableEq, Repr

/-- `sendMessage` of variant 1 as a pure transition. `now` stands for
`Date.now().toString()`. Returns the next state together with the issued
request payload (`none` when the guards short-circuit before `fetch`). -/
def sendMessageV1 (st : AppStateV1) (now : String)
    (res : FetchOutcome ChatCompletionBody) : AppStateV1 × Option SendPayload :=
  match st.token, st.model with
  | some _, some mdl =>
    let trimmed := jsTrim st.currentMsg
    if trimmed == "" then (st, none)
    else
      let userMessage : ChatMessage := { id := now, text := trimmed, role := "user" }
      let st1 := { st with messages := st.messages ++ [userMessage], currentMsg := "" }
      let conversation := (st.messages ++ [userMessage]).map (fun m => (m.role, m.text))
      let payload : SendPayload :=
        { url := getApiBase st.serverUrl ++ "/chat/completions",
          model := mdl, conversation := conversation }
      match res with
      | Except.error _ => ({ st1 with error := some "Network error" }, some payload)
      | Except.ok r =>
        if okAndJson r then
          match r.body with
          | none => ({ st1 with error := some "Network error" }, some payload)
          | some data =>
            match data.choices with
            | some (first :: _) =>
              let reply := replyOf first
              if reply == "" then (st1, some payload)
              else
                ({ st1 with messages := st1.messages ++
                    [{ id := now ++ "-a", text := reply, role := "assistant" }] },
                 some payload)
            | _ =>
              match data.messages with
              | some msgs =>
                ({ st1 with messages := st1.messages ++
                    (msgs.filter keepNonUser).map (toAssistantMsgV1 now) },
                 some payload)
              | none => ({ st1 with error := some "Invalid response format" }, some payload)
        else
          ({ st1 with error := some ("Unexpected response: " ++ r.rawText) }, some payload)
  | _, _ => (st, none)

/-! ### Variants 2 and 3: history fetch and variant 3 send -/

/-- The parsed body of a history response; the code reads only `messages`,
whose entries it stores verbatim as chat messages. -/
structure HistoryBody where
  messages : Option (List ChatMessage)
deriving DecidableEq, Repr

/-- `fetchHistory` of variant 2 (second `App.tsx` copy): a no-op without a
token; success requires `res.ok` and a JSON content type, then the state's
message list is replaced by `data.messages || []`; otherwise the raw text is
logged and the error overlay is set; a transport failure or a `res.json()`
throw is caught as a network error. Messages are untouched on every failure. -/
def fetchHistoryV2 (st : AppStateV2) (res : FetchOutcome HistoryBody) : AppStateV2 :=
  match st.token with
  | none => st
  | some _ =>
    match res with
    | Except.error _ => { st with error := some "Network error" }
    | Except.ok r =>
      if okAndJson r then
        match r.body with
        | none => { st with error := some "Network error" }
        | some data => { st with messages := data.messages.getD [] }
      else { st with error := some "Failed to fetch chat history" }

/-- `fetchHistory` of variant 3 (`unnamed/part_000`): like variant 2's but the
success gate is `res.ok` alone — the content-type header is never consulted
and no raw text is captured. -/
def fetchHistoryV3 (st : AppStateV3) (res : FetchOutcome HistoryBody) : AppStateV3 :=
  match st.token with
  | none => st
  | some _ =>
    match res with
    | Except.error _ => { st with error := some "Network error" }
    | Except.ok r =>
      if isOk r.status then
        match r.body with
        | none => { st with error := some "Network error" }
        | some data => { st with messages := data.messages.getD [] }
      else { st with error := some "Failed to fetch chat history" }

/-- The request payload of variant 3's send: target URL and the `{content}`
body. -/
structure SendPayloadV3 where
  url : String
  content : String
deriving DecidableEq, Repr

/-- The mapping applied to each entry of `data.messages || []` in variant 3's
send: note `msg.text` is preferred over `msg.content` here. -/
def toAssistantMsgV3 (now : String) (m : RespMessage) : ChatMessage :=
  { id := jsOrD m.id now,
    text := jsOrD m.text (jsOrD m.content ""),
    role := jsOrD m.role "assistant" }

/-- `sendMessage` of variant 3: guarded by a token and by non-whitespace
input, the trimmed text is appended optimistically and posted to
`${serverUrl}/api/message`; `res.ok` alone gates success, and every entry of
`data.messages || []` is appended after mapping (no role filter). -/
def sendMessageV3 (st : AppStateV3) (now : String)
    (res : FetchOutcome ChatCompletionBody) : AppStateV3 × Option SendPayloadV3 :=
  match st.token with
  | some _ =>
    let trimmed := jsTrim st.currentMsg
    if trimmed == "" then (st, none)
    else
      let newMsg : ChatMessage := { id := now, text := trimmed, role := "user" }
      let st1 := { st with messages := st.messages ++ [newMsg], currentMsg := "" }
      let payload : SendPayloadV3 :=
        { url := st.serverUrl ++ "/api/message", content := newMsg.text }
      match res with
      | Except.error _ => ({ st1 with error := some "Network error" }, some payload)
      | Except.ok r =>
        if isOk r.status then
          match r.body with
          | none => ({ st1 with error := some "Network error" }, some payload)
          | some data =>
            ({ st1 with messages := st1.messages ++
                ((data.messages.getD []).map (toAssistantMsgV3 now)) },
             some payload)
        else ({ st1 with error := some "Failed to send message" }, some payload)
  | none => (st, none)

/-- `sendMessage` of variant 2: guarded by a token and by non-whitespace
input, the trimmed text is appended optimistically and posted as `{content}`
to `{getApiBase()}/message`; success requires `res.ok` and a JSON content
type, in which case every entry of `data.messages || []` is appended after
the same mapping variant 3 uses (`msg.text` preferred over `msg.content`, id
defaulting to the timestamp, role defaulting to assistant, no role filter);
otherwise the raw text body is captured by `console.warn` and the error
overlay reads "Failed to send message". The result carries the next state,
the issued request (`none` when the guards short-circuit) and the captured
raw text (`none` when nothing was captured). -/
def sendMessageV2 (st : AppStateV2) (now : String)
    (res : FetchOutcome ChatCompletionBody) :
    AppStateV2 × Option SendPayloadV3 × Option String :=
  match st.token with
  | some _ =>
    let trimmed := jsTrim st.currentMsg
    if trimmed == "" then (st, none, none)
    else
      let newMsg : ChatMessage := { id := now, text := trimmed, role := "user" }
      let st1 := { st with messages := st.messages ++ [newMsg], currentMsg := "" }
      let payload : SendPayloadV3 :=
        { url := getApiBase st.serverUrl ++ "/message", content := newMsg.text }
      match res with
      | Except.error _ => ({ st1 with error := some "Network error" }, some payload, none)
      | Except.ok r =>
        if okAndJson r then
          match r.body with
          | none => ({ st1 with error := some "Network error" }, some payload, none)
          | some data =>
            ({ st1 with messages := st1.messages ++
                ((data.messages.getD []).map (toAssistantMsgV3 now)) },
             some payload, none)
        else
          ({ st1 with error := some "Failed to send message" }, some payload, some r.rawText)
  | none => (st, none, none)

/-- Variant 2's `fetchHistory` together with the raw text body it captures by
`console.warn` on the non-2xx / non-JSON branch (`none` when nothing was
captured). The state component coincides with `fetchHistoryV2`
(`fetchHistoryV2Captured_fst`). -/
def fetchHistoryV2Captured (st : AppStateV2) (res : FetchOutcome HistoryBody) :
    AppStateV2 × Option String :=
  match st.token with
  | none => (st, none)
  | some _ =>
    match res with
    | Except.error _ => ({ st with error := some "Network error" }, none)
    | Except.ok r =>
      if okAndJson r then
        match r.body with
        | none => ({ st with error := some "Network error" }, none)
        | some data => ({ st with messages := data.messages.getD [] }, none)
      else ({ st with error := some "Failed to fetch chat history" }, some r.rawText)

/-! ## Helper lemmas -/

theorem fetchHistoryV2Captured_fst (st : AppStateV2) (res : FetchOutcome HistoryBody) :
    (fetchHistoryV2Captured st res).1 = fetchHistoryV2 st res := by
  unfold fetchHistoryV2Captured fetchHistoryV2
  cases ht : st.token with
  | none => rfl
  | some t =>
    cases res with
    | error e => rfl
    | ok r =>
      by_cases h : okAndJson r = true
      · cases hb : r.body <;> simp [h, hb]
      · simp only [Bool.not_eq_true] at h
        simp [h]

theorem endsWithStr_append (t suf : String) : endsWithStr (t ++ suf) suf = true := by
  simp [endsWithStr, String.toList, String.data_append, List.isSuffixOf_iff_suffix]

theorem dropTrailingSlashes_append_api (s : String) :
    dropTrailingSlashes (s ++ "/api") = s ++ "/api" := by
  have h : (s ++ "/api").toList = s.toList ++ ['/', 'a', 'p', 'i'] := by
    simp [String.toList, String.data_append]
  simp only [dropTrailingSlashes, h]
  simp [List.dropWhile]
  exact (congrArg String.mk h).symm

/-! ## Claims -/

/-- C8 (counterexample): variant 3 builds its authenticated history URL as
`serverUrl + "/api/chats"` unconditionally. For a server URL already ending in
`/api` this duplicates the `/api` segment instead of leaving the base
unchanged, and for a server URL with a trailing slash the slash is not
removed — so the claimed normalization does not govern this call. -/
theorem c8_counterexample :
    historyUrlV3 "http://h/api" = "http://h/api/api/chats" ∧
    historyUrlV3 "http://h/api" ≠ getApiBase "http://h/api" ++ "/chats" ∧
    historyUrlV3 "http://h/" = "http://h//api/chats" := by decide

/-- C8 (amended): for the variants that use `getApiBase`, the base path always
ends in `/api`, and when the URL already ends in `/api` nothing further is
appended; variant 3 instead appends `/api/chats` to the raw server URL
unconditionally, with no trailing-slash removal or duplicate check. -/
theorem c8_base_path_normalization (s : String) :
    endsWithStr (getApiBase s) "/api" = true ∧
    getApiBase (s ++ "/api") = s ++ "/api" ∧
    historyUrlV3 s = s ++ "/api/chats" := by
  refine ⟨?_, ?_, rfl⟩
  · unfold getApiBase
    by_cases h : endsWithStr (dropTrailingSlashes s) "/api" = true
    · simp [h]
    · simp only [Bool.not_eq_true] at h
      simp [h, endsWithStr_append]
  · unfold getApiBase
    rw [dropTrailingSlashes_append_api]
    simp [endsWithStr_append]

/-- A ready variant 1 state whose input box holds only whitespace. -/
def c5StateV1 : AppStateV1 :=
  { serverUrl := "http://h", apiKey := "k", token := some "k", model := some "m",
    messages := [], currentMsg := "   ", error := none }

/-- A logged-in variant 3 state whose input box holds only whitespace. -/
def c5StateV3 : AppStateV3 :=
  { serverUrl := "http://h", username := "u", password := "p", token := some "t",
    messages := [], currentMsg := " ", error := none }

/-- C5: when the input text trims to the empty string, `sendMessage` (in both
the variant that has the guard at `App.tsx` lines 139-142 and the variant in
`part_000` lines 62-65) leaves the state — conversation included — completely
unchanged and issues no network request. -/
theorem c5_whitespace_noop (st1 : AppStateV1) (st3 : AppStateV3) (now1 now3 : String)
    (res1 res3 : FetchOutcome ChatCompletionBody)
    (h1 : jsTrim st1.currentMsg = "") (h3 : jsTrim st3.currentMsg = "") :
    sendMessageV1 st1 now1 res1 = (st1, none) ∧
    sendMessageV3 st3 now3 res3 = (st3, none) := by
  constructor
  · unfold sendMessageV1
    cases ht : st1.token <;> cases hm : st1.model <;> simp [h1]
  · unfold sendMessageV3
    cases ht : st3.token <;> simp [h3]

/-- C5 witness: concrete whitespace-only inputs in ready states. -/
theorem c5_whitespace_noop_witness :
    sendMessageV1 c5StateV1 "9" (Except.error ()) = (c5StateV1, none) ∧
    sendMessageV3 c5StateV3 "9" (Except.error ()) = (c5StateV3, none) :=
  c5_whitespace_noop c5StateV1 c5StateV3 "9" "9" (Except.error ()) (Except.error ())
    (by decide) (by decide)

/-- A models-list entry whose `id` is present but empty, with a non-empty
`name`. -/
def c3CexEntry : ModelEntry := { id := some "", name := some "n" }

/-- A successful models-listing response whose first entry is `c3CexEntry`. -/
def c3CexResponse : HttpResponse ModelsBody :=
  { status := 200, contentType := "application/json",
    body := some { models := some [c3CexEntry] }, rawText := "" }

/-- C3 (counterexample): `first.id || first.name || null` uses JavaScript
truthiness, so when both `id` and `name` are present but `id` is the empty
string, discovery returns `name`, not the `id` field as the claim states. -/
theorem c3_counterexample :
    c3CexEntry.id.isSome = true ∧ c3CexEntry.name.isSome = true ∧
    (fetchFirstModel (some "k") (Except.ok c3CexResponse)).1 ≠ c3CexEntry.id ∧
    (fetchFirstModel (some "k") (Except.ok c3CexResponse)).1 = c3CexEntry.name := by decide

/-- C3 (amended): on a successful (2xx, JSON) listing, discovery returns the
first entry's `id` when it is present and non-empty, falls back to `name` when
`id` is absent or empty and `name` is present and non-empty, and returns
absent when both are absent/empty; it returns absent for an empty or missing
list, a body that fails to parse, a non-2xx status, a non-JSON content type,
or a transport failure. -/
theorem c3_discover_model (tok : String) (r : HttpResponse ModelsBody)
    (data : ModelsBody) (first : ModelEntry) (rest : List ModelEntry) :
    (okAndJson r = true → r.body = some data → data.models = some (first :: rest) →
       (truthy first.id = true → (fetchFirstModel (some tok) (Except.ok r)).1 = first.id) ∧
       (truthy first.id = false → truthy first.name = true →
          (fetchFirstModel (some tok) (Except.ok r)).1 = first.name) ∧
       (truthy first.id = false → truthy first.name = false →
          (fetchFirstModel (some tok) (Except.ok r)).1 = none)) ∧
    (okAndJson r = true → r.body = some data → data.models = some [] →
       (fetchFirstModel (some tok) (Except.ok r)).1 = none) ∧
    (okAndJson r = true → r.body = some data → data.models = none →
       (fetchFirstModel (some tok) (Except.ok r)).1 = none) ∧
    (okAndJson r = true → r.body = none →
       (fetchFirstModel (some tok) (Except.ok r)).1 = none) ∧
    (isOk r.status = false ∨ isJsonContentType r.contentType = false →
       (fetchFirstModel (some tok) (Except.ok r)).1 = none) ∧
    (fetchFirstModel (some tok) (Except.error ())).1 = none := by
  refine ⟨?_, ?_, ?_, ?_, ?_, rfl⟩
  · intro hok hb hm
    refine ⟨?_, ?_, ?_⟩
    · intro hid
      simp [fetchFirstModel, hok, hb, hm, jsOr, hid]
    · intro hid hname
      simp [fetchFirstModel, hok, hb, hm, jsOr, hid, hname]
    · intro hid hname
      simp [fetchFirstModel, hok, hb, hm, jsOr, hid, hname]
  · intro hok hb hm
    simp [fetchFirstModel, hok, hb, hm]
  · intro hok hb hm
    simp [fetchFirstModel, hok, hb, hm]
  · intro hok hb
    simp [fetchFirstModel, hok, hb]
  · intro h
    have hok : okAndJson r = false := by
      rcases h with h | h <;> simp [okAndJson, h]
    simp [fetchFirstModel, hok]

/-- A models-list entry with non-empty `id` and `name`. -/
def c3OkEntry : ModelEntry := { id := some "m1", name := some "n1" }

/-- A successful models-listing response whose first entry is `c3OkEntry`. -/
def c3OkResponse : HttpResponse ModelsBody :=
  { status := 200, contentType := "application/json",
    body := some { models := some [c3OkEntry] }, rawText := "" }

/-- A 200 response with a plain-text content type. -/
def c3PlainResponse : HttpResponse ModelsBody :=
  { status := 200, contentType := "text/plain", body := none, rawText := "oops" }

/-- C3 witness: a non-empty `id` is returned, and a non-JSON content type
yields absent. -/
theorem c3_discover_model_witness :
    (fetchFirstModel (some "k") (Except.ok c3OkResponse)).1 = some "m1" ∧
    (fetchFirstModel (some "k") (Except.ok c3PlainResponse)).1 = none := by
  constructor
  · have h := ((c3_discover_model "k" c3OkResponse { models := some [c3OkEntry] } c3OkEntry []).1
      (by decide) (by decide) (by decide)).1 (by decide)
    exact h.trans (by decide)
  · exact (c3_discover_model "k" c3PlainResponse { models := none } c3OkEntry []).2.2.2.2.1
      (Or.inr (by decide))

/-- A credential store in which neither key was ever written. -/
def emptyStore : LocalStorage := { serverUrl := none, apiKey := none }

/-- A connection form whose server URL carries leading whitespace. -/
def c4CexState : AppStateV1 :=
  { serverUrl := " a", apiKey := "k", token := none, model := none,
    messages := [], currentMsg := "", error := none }

/-- C4 (counterexample): for the input pair (" a", "k") — valid, since both
fields are non-empty after trimming — `connect` persists the trimmed value
"a", not the submitted value " a", so it does not persist exactly the given
pair. -/
theorem c4_counterexample :
    jsTrim c4CexState.serverUrl ≠ "" ∧ jsTrim c4CexState.apiKey ≠ "" ∧
    (connect emptyStore c4CexState).1.serverUrl = some "a" ∧
    some "a" ≠ some c4CexState.serverUrl := by decide

/-- C4 (amended): when both fields are non-empty after trimming, `connect`
persists exactly the two trimmed values under the fixed keys `serverUrl` and
`apiKey`, and a subsequent load returns exactly that trimmed pair unchanged
(both as the raw read and through the mount effect, which also restores the
token); when either field trims to empty, `connect` sets a local validation
error and leaves the store untouched. -/
theorem c4_connect_roundtrip (ls : LocalStorage) (st st0 : AppStateV1) :
    (jsTrim st.serverUrl ≠ "" → jsTrim st.apiKey ≠ "" →
       (connect ls st).1 =
         { serverUrl := some (jsTrim st.serverUrl), apiKey := some (jsTrim st.apiKey) } ∧
       loadCredentials (connect ls st).1 = (jsTrim st.serverUrl, jsTrim st.apiKey) ∧
       (mountLoad (connect ls st).1 st0).serverUrl = jsTrim st.serverUrl ∧
       (mountLoad (connect ls st).1 st0).apiKey = jsTrim st.apiKey ∧
       (mountLoad (connect ls st).1 st0).token = some (jsTrim st.apiKey)) ∧
    ((jsTrim st.serverUrl = "" ∨ jsTrim st.apiKey = "") →
       (connect ls st).1 = ls ∧
       ((connect ls st).2).error = some "Server URL and API key required") := by
  constructor
  · intro hu hk
    have hcond : (jsTrim st.serverUrl == "" || jsTrim st.apiKey == "") = false := by
      simp [hu, hk]
    refine ⟨?_, ?_, ?_, ?_, ?_⟩ <;>
      simp [connect, hcond, loadCredentials, mountLoad, hu, hk]
  · intro h
    have hcond : (jsTrim st.serverUrl == "" || jsTrim st.apiKey == "") = true := by
      rcases h with h | h <;> simp [h]
    constructor <;> simp [connect, hcond]

/-- A connection form with padded but valid entries. -/
def c4WitnessState : AppStateV1 :=
  { serverUrl := " http://h ", apiKey := " key ", token := none, model := none,
    messages := [], currentMsg := "", error := none }

/-- A freshly mounted, empty component state. -/
def c4FreshState : AppStateV1 :=
  { serverUrl := "", apiKey := "", token := none, model := none,
    messages := [], currentMsg := "", error := none }

/-- C4 witness: the padded pair (" http://h ", " key ") persists and reloads
as ("http://h", "key"). -/
theorem c4_connect_roundtrip_witness :
    (connect emptyStore c4WitnessState).1 =
      { serverUrl := some "http://h", apiKey := some "key" } ∧
    loadCredentials (connect emptyStore c4WitnessState).1 = ("http://h", "key") ∧
    (mountLoad (connect emptyStore c4WitnessState).1 c4FreshState).serverUrl = "http://h" := by
  have h := (c4_connect_roundtrip emptyStore c4WitnessState c4FreshState).1
    (by decide) (by decide)
  exact ⟨h.1.trans (by decide), h.2.1.trans (by decide), h.2.2.1.trans (by decide)⟩

/-- C9: history fetching. In both history-capable variants a successful
response replaces the conversation with the server-provided list verbatim,
a successful response with the `messages` field missing yields the empty
sequence, and a non-2xx status or a body that fails to parse sets the error
overlay while leaving the conversation untouched — a failure signal distinct
from an empty history. -/
theorem c9_history (st2 : AppStateV2) (st3 : AppStateV3) (tok : String)
    (r2 r3 : HttpResponse HistoryBody) (l : List ChatMessage)
    (h2 : st2.token = some tok) (h3 : st3.token = some tok) :
    (okAndJson r2 = true → r2.body = some (HistoryBody.mk (some l)) →
       fetchHistoryV2 st2 (Except.ok r2) = { st2 with messages := l }) ∧
    (okAndJson r2 = true → r2.body = some (HistoryBody.mk none) →
       fetchHistoryV2 st2 (Except.ok r2) = { st2 with messages := [] }) ∧
    (okAndJson r2 = false →
       fetchHistoryV2 st2 (Except.ok r2) =
         { st2 with error := some "Failed to fetch chat history" }) ∧
    (okAndJson r2 = true → r2.body = none →
       fetchHistoryV2 st2 (Except.ok r2) = { st2 with error := some "Network error" }) ∧
    (fetchHistoryV2 st2 (Except.error ()) = { st2 with error := some "Network error" }) ∧
    (isOk r3.status = true → r3.body = some (HistoryBody.mk (some l)) →
       fetchHistoryV3 st3 (Except.ok r3) = { st3 with messages := l }) ∧
    (isOk r3.status = true → r3.body = some (HistoryBody.mk none) →
       fetchHistoryV3 st3 (Except.ok r3) = { st3 with messages := [] }) ∧
    (isOk r3.status = false →
       fetchHistoryV3 st3 (Except.ok r3) =
         { st3 with error := some "Failed to fetch chat history" }) := by
  refine ⟨?_, ?_, ?_, ?_, ?_, ?_, ?_, ?_⟩ <;> intros
  all_goals simp_all [fetchHistoryV2, fetchHistoryV3]

/-- A logged-in variant 3 state with an empty conversation. -/
def readyStateV3 : AppStateV3 :=
  { serverUrl := "http://h", username := "u", password := "p", token := some "k",
    messages := [], currentMsg := "", error := none }

/-- The single message of the spec's history example. -/
def c9Msg : ChatMessage := { id := "1", text := "hi", role := "user" }

/-- A connected variant 2 state with an empty conversation. -/
def c9StateV2 : AppStateV2 :=
  { serverUrl := "http://h", apiKey := "k", token := some "k",
    messages := [], currentMsg := "", error := none }

/-- A successful history response carrying exactly the spec's example
message. -/
def c9OkRes : HttpResponse HistoryBody :=
  { status := 200, contentType := "application/json",
    body := some { messages := some [c9Msg] }, rawText := "" }

/-- C9 witness: the history endpoint returning
`{messages: [{id:"1",role:"user",text:"hi"}]}` yields exactly that one
message. -/
theorem c9_history_witness :
    fetchHistoryV2 c9StateV2 (Except.ok c9OkRes) = { c9StateV2 with messages := [c9Msg] } :=
  (c9_history c9StateV2 readyStateV3 "k" c9OkRes c9OkRes [c9Msg]
    (by decide) (by decide)).1 (by decide) (by decide)

/-- A server message used in the C1 counterexample. -/
def c1Msg : ChatMessage := { id := "1", text := "hi", role := "user" }

/-- A 200 response whose content type is `text/plain` but whose body parses
as JSON. -/
def c1PlainRes : HttpResponse HistoryBody :=
  { status := 200, contentType := "text/plain",
    body := some { messages := some [c1Msg] }, rawText := "body" }

/-- A send-response entry used in the C1 counterexample. -/
def c1RespMsg : RespMessage :=
  { id := some "2", content := some "yo", text := none, role := some "assistant" }

/-- A 200 send response whose content type is `text/plain` but whose body
parses as JSON. -/
def c1SendPlainRes : HttpResponse ChatCompletionBody :=
  { status := 200, contentType := "text/plain",
    body := some { choices := none, messages := some [c1RespMsg] }, rawText := "body" }

/-- A logged-in variant 3 state with pending input "hi". -/
def c1SendStateV3 : AppStateV3 :=
  { serverUrl := "http://h", username := "u", password := "p", token := some "k",
    messages := [], currentMsg := "hi", error := none }

/-- A connected variant 2 state with pending input "hi". -/
def c1SendStateV2 : AppStateV2 :=
  { serverUrl := "http://h", apiKey := "k", token := some "k",
    messages := [], currentMsg := "hi", error := none }

/-- C1 (counterexample): variant 3 gates both of its API operations on
`res.ok` alone, so a response with status 200 and content-type `text/plain`
is treated as a success by its history fetch (the message list is installed,
no error is set) and likewise by its message send (the assistant reply is
appended, no error is set) — contrary to the claim that every API-client
operation rejects such a response. -/
theorem c1_counterexample :
    c1PlainRes.status = 200 ∧
    isJsonContentType c1PlainRes.contentType = false ∧
    fetchHistoryV3 readyStateV3 (Except.ok c1PlainRes) =
      { readyStateV3 with messages := [c1Msg] } ∧
    (fetchHistoryV3 readyStateV3 (Except.ok c1PlainRes)).error = none ∧
    isJsonContentType c1SendPlainRes.contentType = false ∧
    (sendMessageV3 c1SendStateV3 "9" (Except.ok c1SendPlainRes)).1 =
      { c1SendStateV3 with
          messages := [{ id := "9", text := "hi", role := "user" },
                       { id := "2", text := "yo", role := "assistant" }],
          currentMsg := "" } ∧
    ((sendMessageV3 c1SendStateV3 "9" (Except.ok c1SendPlainRes)).1).error = none := by decide

/-- C1 (amended): variant 1's model discovery and message send and variant
2's history fetch and message send treat a response as successful only when
the status is 2xx and the content type contains `application/json`, and on
such a failure capture the raw text body for diagnostics (for variant 1's
send it is embedded in the error overlay, elsewhere it is logged); variant
3's history fetch and message send instead gate success on the 2xx status
alone, never consulting the content-type header and capturing no raw
text. -/
theorem c1_success_gate (st1 : AppStateV1) (st2 : AppStateV2) (st3 : AppStateV3)
    (tok mdl now : String) (r1 : HttpResponse ModelsBody)
    (rc rc2 rc3 : HttpResponse ChatCompletionBody)
    (r2 r3 : HttpResponse HistoryBody) (b3 : HistoryBody) (d2 d3 : ChatCompletionBody)
    (ht1 : st1.token = some tok) (hm1 : st1.model = some mdl)
    (hcur1 : jsTrim st1.currentMsg ≠ "")
    (ht2 : st2.token = some tok) (hcur2 : jsTrim st2.currentMsg ≠ "")
    (ht3 : st3.token = some tok) (hcur3 : jsTrim st3.currentMsg ≠ "") :
    (okAndJson r1 = false →
       fetchFirstModel (some tok) (Except.ok r1) = (none, some r1.rawText)) ∧
    (okAndJson rc = false →
       ((sendMessageV1 st1 now (Except.ok rc)).1).error =
         some ("Unexpected response: " ++ rc.rawText)) ∧
    (okAndJson rc2 = false →
       ((sendMessageV2 st2 now (Except.ok rc2)).1).error = some "Failed to send message" ∧
       (sendMessageV2 st2 now (Except.ok rc2)).2.2 = some rc2.rawText) ∧
    (okAndJson rc2 = true → rc2.body = some d2 →
       ((sendMessageV2 st2 now (Except.ok rc2)).1).messages =
         st2.messages ++ [{ id := now, text := jsTrim st2.currentMsg, role := "user" }] ++
           ((d2.messages.getD []).map (toAssistantMsgV3 now))) ∧
    (okAndJson r2 = false →
       fetchHistoryV2Captured st2 (Except.ok r2) =
         ({ st2 with error := some "Failed to fetch chat history" }, some r2.rawText)) ∧
    (isOk r3.status = true → r3.body = some b3 →
       fetchHistoryV3 st3 (Except.ok r3) = { st3 with messages := b3.messages.getD [] }) ∧
    (isOk r3.status = false →
       fetchHistoryV3 st3 (Except.ok r3) =
         { st3 with error := some "Failed to fetch chat history" }) ∧
    (isOk rc3.status = true → rc3.body = some d3 →
       (sendMessageV3 st3 now (Except.ok rc3)).1 =
         { st3 with
             messages := st3.messages ++
               [{ id := now, text := jsTrim st3.currentMsg, role := "user" }] ++
               ((d3.messages.getD []).map (toAssistantMsgV3 now)),
             currentMsg := "" }) ∧
    (isOk rc3.status = false →
       ((sendMessageV3 st3 now (Except.ok rc3)).1).error = some "Failed to send message") := by
  refine ⟨?_, ?_, ?_, ?_, ?_, ?_, ?_, ?_, ?_⟩ <;> intros
  all_goals
    simp_all [fetchFirstModel, sendMessageV1, sendMessageV2, fetchHistoryV2Captured,
      fetchHistoryV3, sendMessageV3]

/-- A ready variant 1 state with pending input "hi". -/
def c1StateV1 : AppStateV1 :=
  { serverUrl := "http://h", apiKey := "k", token := some "k", model := some "m",
    messages := [], currentMsg := "hi", error := none }

/-- A 200 `text/plain` models-listing response. -/
def c1PlainModelsRes : HttpResponse ModelsBody :=
  { status := 200, contentType := "text/plain", body := none, rawText := "listing" }

/-- C1 witness: a 200 `text/plain` listing is a discovery failure with its
raw text captured, variant 2's send and history fetch reject the same content
type and capture its raw text, while both of variant 3's operations accept
it. -/
theorem c1_success_gate_witness :
    fetchFirstModel (some "k") (Except.ok c1PlainModelsRes) = (none, some "listing") ∧
    (sendMessageV2 c1SendStateV2 "9" (Except.ok c1SendPlainRes)).2.2 = some "body" ∧
    fetchHistoryV2Captured c1SendStateV2 (Except.ok c1PlainRes) =
      ({ c1SendStateV2 with error := some "Failed to fetch chat history" }, some "body") ∧
    fetchHistoryV3 c1SendStateV3 (Except.ok c1PlainRes) =
      { c1SendStateV3 with messages := [c1Msg] } ∧
    (sendMessageV3 c1SendStateV3 "9" (Except.ok c1SendPlainRes)).1 =
      { c1SendStateV3 with
          messages := [{ id := "9", text := "hi", role := "user" },
                       { id := "2", text := "yo", role := "assistant" }],
          currentMsg := "" } := by
  have h := c1_success_gate c1StateV1 c1SendStateV2 c1SendStateV3 "k" "m" "9"
    c1PlainModelsRes c1SendPlainRes c1SendPlainRes c1SendPlainRes c1PlainRes c1PlainRes
    { messages := some [c1Msg] }
    { choices := none, messages := some [c1RespMsg] }
    { choices := none, messages := some [c1RespMsg] }
    (by decide) (by decide) (by decide) (by decide) (by decide) (by decide) (by decide)
  refine ⟨h.1 (by decide), ?_, ?_, ?_, ?_⟩
  · exact ((h.2.2.1 (by decide)).2).trans (by decide)
  · exact (h.2.2.2.2.1 (by decide)).trans (by decide)
  · exact (h.2.2.2.2.2.1 (by decide) (by decide)).trans (by decide)
  · exact (h.2.2.2.2.2.2.2.1 (by decide) (by decide)).trans (by decide)

theorem jsOrD_not_truthy (a : Option String) (d : String) (h : truthy a = false) :
    jsOrD a d = d := by
  cases a <;> simp_all [truthy, jsOrD]

/-- C7: when variant 1's `sendMessage` fails — transport error, non-2xx or
non-JSON response, or a body that fails to parse — the error overlay is set,
the optimistically appended user message stays at the end of the conversation,
and every previously present message is unchanged (the new conversation is
exactly the old one with the user message appended). -/
theorem c7_send_failure (st : AppStateV1) (tok mdl now : String)
    (r : HttpResponse ChatCompletionBody)
    (h1 : st.token = some tok) (h2 : st.model = some mdl) (h3 : jsTrim st.currentMsg ≠ "") :
    ((sendMessageV1 st now (Except.error ())).1 =
       { st with
           messages := st.messages ++
             [{ id := now, text := jsTrim st.currentMsg, role := "user" }],
           currentMsg := "", error := some "Network error" }) ∧
    (okAndJson r = false →
       (sendMessageV1 st now (Except.ok r)).1 =
         { st with
             messages := st.messages ++
               [{ id := now, text := jsTrim st.currentMsg, role := "user" }],
             currentMsg := "", error := some ("Unexpected response: " ++ r.rawText) }) ∧
    (okAndJson r = true → r.body = none →
       (sendMessageV1 st now (Except.ok r)).1 =
         { st with
             messages := st.messages ++
               [{ id := now, text := jsTrim st.currentMsg, role := "user" }],
             currentMsg := "", error := some "Network error" }) := by
  refine ⟨?_, ?_, ?_⟩ <;> intros
  all_goals simp_all [sendMessageV1]

/-- A ready variant 1 state with one earlier message and pending input. -/
def c7State : AppStateV1 :=
  { serverUrl := "http://h", apiKey := "k", token := some "k", model := some "m",
    messages := [{ id := "0", text := "earlier", role := "assistant" }],
    currentMsg := "hi", error := none }

/-- C7 witness: a transport failure keeps the earlier message and the
optimistic user message, and sets the error overlay. -/
theorem c7_send_failure_witness :
    (sendMessageV1 c7State "9" (Except.error ())).1 =
      { c7State with
          messages := [{ id := "0", text := "earlier", role := "assistant" },
                       { id := "9", text := "hi", role := "user" }],
          currentMsg := "", error := some "Network error" } := by
  have h := (c7_send_failure c7State "k" "m" "9"
    { status := 500, contentType := "", body := none, rawText := "" }
    (by decide) (by decide) (by decide)).1
  exact h.trans (by decide)

/-- C10: a successful (2xx, JSON) send response with a non-empty `choices`
array whose first entry has neither a non-empty `message.content` nor a
non-empty `delta.content` appends no assistant message and signals no error:
the resulting state is exactly the optimistic state (user message appended,
input cleared, error field untouched). -/
theorem c10_empty_reply_silent (st : AppStateV1) (tok mdl now : String)
    (r : HttpResponse ChatCompletionBody) (data : ChatCompletionBody)
    (first : Choice) (rest : List Choice)
    (h1 : st.token = some tok) (h2 : st.model = some mdl) (h3 : jsTrim st.currentMsg ≠ "")
    (hok : okAndJson r = true) (hb : r.body = some data)
    (hc : data.choices = some (first :: rest))
    (hm : truthy (first.message.bind ChoicePart.content) = false)
    (hd : truthy (first.delta.bind ChoicePart.content) = false) :
    (sendMessageV1 st now (Except.ok r)).1 =
      { st with
          messages := st.messages ++
            [{ id := now, text := jsTrim st.currentMsg, role := "user" }],
          currentMsg := "" } := by
  have hrep : replyOf first = "" := by
    simp [replyOf, jsOrD_not_truthy _ _ hm, jsOrD_not_truthy _ _ hd]
  simp [sendMessageV1, h1, h2, h3, hok, hb, hc, hrep]

/-- A send response whose only choice carries an empty `message.content`. -/
def c10Body : ChatCompletionBody :=
  { choices := some [{ message := some { content := some "" }, delta := none }],
    messages := none }

/-- A successful HTTP wrapper around `c10Body`. -/
def c10Res : HttpResponse ChatCompletionBody :=
  { status := 200, contentType := "application/json", body := some c10Body, rawText := "" }

/-- A ready variant 1 state with empty conversation and pending input. -/
def c10State : AppStateV1 :=
  { serverUrl := "http://h", apiKey := "k", token := some "k", model := some "m",
    messages := [], currentMsg := "hi", error := none }

/-- C10 witness: the empty-content choice leaves only the optimistic user
message, with no error. -/
theorem c10_empty_reply_silent_witness :
    (sendMessageV1 c10State "9" (Except.ok c10Res)).1 =
      { c10State with
          messages := [{ id := "9", text := "hi", role := "user" }], currentMsg := "" } := by
  have h := c10_empty_reply_silent c10State "k" "m" "9" c10Res c10Body
    { message := some { content := some "" }, delta := none } []
    (by decide) (by decide) (by decide) (by decide) (by decide) (by decide)
    (by decide) (by decide)
  exact h.trans (by decide)

/-- C2: variant 1's send normalization checks, in order, the first choice's
`message.content`, then its `delta.content`, then — when the `choices` array
is absent or empty — a `messages` array filtered to truthy non-user roles,
and signals "Invalid response format" when none of these dispatch shapes is
present. -/
theorem c2_send_normalization (st : AppStateV1) (tok mdl now c : String)
    (r : HttpResponse ChatCompletionBody) (data : ChatCompletionBody)
    (first : Choice) (rest : List Choice) (msgs : List RespMessage)
    (h1 : st.token = some tok) (h2 : st.model = some mdl) (h3 : jsTrim st.currentMsg ≠ "")
    (hok : okAndJson r = true) (hb : r.body = some data) :
    (data.choices = some (first :: rest) →
       first.message.bind ChoicePart.content = some c → c ≠ "" →
       (sendMessageV1 st now (Except.ok r)).1 =
         { st with
             messages := st.messages ++
               [{ id := now, text := jsTrim st.currentMsg, role := "user" },
                { id := now ++ "-a", text := c, role := "assistant" }],
             currentMsg := "" }) ∧
    (data.choices = some (first :: rest) →
       truthy (first.message.bind ChoicePart.content) = false →
       first.delta.bind ChoicePart.content = some c → c ≠ "" →
       (sendMessageV1 st now (Except.ok r)).1 =
         { st with
             messages := st.messages ++
               [{ id := now, text := jsTrim st.currentMsg, role := "user" },
                { id := now ++ "-a", text := c, role := "assistant" }],
             currentMsg := "" }) ∧
    (data.choices.getD [] = [] → data.messages = some msgs →
       (sendMessageV1 st now (Except.ok r)).1 =
         { st with
             messages := st.messages ++
               [{ id := now, text := jsTrim st.currentMsg, role := "user" }] ++
               (msgs.filter keepNonUser).map (toAssistantMsgV1 now),
             currentMsg := "" }) ∧
    (data.choices.getD [] = [] → data.messages = none →
       (sendMessageV1 st now (Except.ok r)).1 =
         { st with
             messages := st.messages ++
               [{ id := now, text := jsTrim st.currentMsg, role := "user" }],
             currentMsg := "", error := some "Invalid response format" }) := by
  refine ⟨?_, ?_, ?_, ?_⟩
  · intro hc hmc hcne
    have hrep : replyOf first = c := by
      simp [replyOf, hmc, jsOrD, hcne]
    simp [sendMessageV1, h1, h2, h3, hok, hb, hc, hrep, hcne]
  · intro hc hmf hdc hcne
    have hrep : replyOf first = c := by
      unfold replyOf
      rw [jsOrD_not_truthy _ _ hmf]
      simp [hdc, jsOrD, hcne]
    simp [sendMessageV1, h1, h2, h3, hok, hb, hc, hrep, hcne]
  · intro hc hmsgs
    cases hcc : data.choices with
    | none => simp [sendMessageV1, h1, h2, h3, hok, hb, hcc, hmsgs]
    | some l =>
      cases l with
      | nil => simp [sendMessageV1, h1, h2, h3, hok, hb, hcc, hmsgs]
      | cons a t => rw [hcc] at hc; simp at hc
  · intro hc hmsgs
    cases hcc : data.choices with
    | none => simp [sendMessageV1, h1, h2, h3, hok, hb, hcc, hmsgs]
    | some l =>
      cases l with
      | nil => simp [sendMessageV1, h1, h2, h3, hok, hb, hcc, hmsgs]
      | cons a t => rw [hcc] at hc; simp at hc

/-- The spec's chat-completion example body. -/
def c2Body : ChatCompletionBody :=
  { choices := some [{ message := some { content := some "hello" }, delta := none }],
    messages := none }

/-- A successful HTTP wrapper around `c2Body`. -/
def c2Res : HttpResponse ChatCompletionBody :=
  { status := 200, contentType := "application/json", body := some c2Body, rawText := "" }

/-- A ready variant 1 state with empty conversation and pending input. -/
def c2State : AppStateV1 :=
  { serverUrl := "http://h", apiKey := "k", token := some "k", model := some "m",
    messages := [], currentMsg := "hi", error := none }

/-- C2 witness: the response `{choices: [{message: {content: "hello"}}]}`
yields exactly one assistant message with text "hello" after the optimistic
user message. -/
theorem c2_send_normalization_witness :
    (sendMessageV1 c2State "7" (Except.ok c2Res)).1 =
      { c2State with
          messages := [{ id := "7", text := "hi", role := "user" },
                       { id := "7-a", text := "hello", role := "assistant" }],
          currentMsg := "" } := by
  have h := (c2_send_normalization c2State "k" "m" "7" "hello" c2Res c2Body
    { message := some { content := some "hello" }, delta := none } [] []
    (by decide) (by decide) (by decide) (by decide) (by decide)).1
    (by decide) (by decide) (by decide)
  exact h.trans (by decide)

/-- A prior-session message for the C6 counterexample. -/
def c6Msg : ChatMessage := { id := "0", text := "old", role := "user" }

/-- A variant 2 state holding a prior conversation while the user reconnects
with a different server URL and key. -/
def c6StateV2 : AppStateV2 :=
  { serverUrl := "http://new", apiKey := "k2", token := some "k1",
    messages := [c6Msg], currentMsg := "", error := none }

/-- C6 (counterexample): in the history-capable variant, reconnecting (via
`connect` with a new server URL) leaves the prior conversation in place, and
it is still there after the new history fetch fails — the conversation is not
cleared to empty before the fetch resolves. -/
theorem c6_counterexample :
    ((connectV2 emptyStore c6StateV2).2).messages = [c6Msg] ∧
    (fetchHistoryV2 (connectV2 emptyStore c6StateV2).2 (Except.error ())).messages = [c6Msg] ∧
    ([c6Msg] : List ChatMessage) ≠ [] := by decide

/-- C6 (amended): in the model-discovery variant, whenever a credential is
present the setup effect clears the conversation to empty before (and keeps
it empty after) model discovery resolves; in the history-capable variant,
`connect` leaves the conversation untouched, a successful history fetch
replaces it wholesale with the server list (never merging), and a failed
fetch leaves the prior conversation in place. -/
theorem c6_conversation_reset (st1 : AppStateV1) (st2 : AppStateV2) (ls : LocalStorage)
    (res : FetchOutcome ModelsBody) (r2 : HttpResponse HistoryBody)
    (l : List ChatMessage) (tok : String) :
    (st1.token.isSome = true → (setupV1Begin st1).messages = []) ∧
    (st1.token.isSome = true → (setupV1 st1 res).messages = []) ∧
    (((connectV2 ls st2).2).messages = st2.messages) ∧
    (st2.token = some tok → okAndJson r2 = true → r2.body = some (HistoryBody.mk (some l)) →
       (fetchHistoryV2 st2 (Except.ok r2)).messages = l) ∧
    (st2.token = some tok → okAndJson r2 = false →
       (fetchHistoryV2 st2 (Except.ok r2)).messages = st2.messages) := by
  refine ⟨?_, ?_, ?_, ?_, ?_⟩
  · intro h
    cases ht : st1.token <;> simp_all [setupV1Begin]
  · intro h
    cases ht : st1.token
    · simp_all
    · cases hf : (fetchFirstModel st1.token res).1 <;>
        simp_all [setupV1, setupV1Begin, setupV1Resolve]
  · by_cases h : (jsTrim st2.apiKey == "" || jsTrim st2.serverUrl == "") = true
    · simp [connectV2, h]
    · simp only [Bool.not_eq_true] at h
      simp [connectV2, h]
  · intro ht hok hb
    simp_all [fetchHistoryV2]
  · intro ht hok
    simp_all [fetchHistoryV2]

/-- A variant 1 state holding a prior conversation at the moment its setup
effect re-runs. -/
def c6StateV1 : AppStateV1 :=
  { serverUrl := "http://new", apiKey := "k", token := some "k", model := none,
    messages := [{ id := "0", text := "old", role := "user" }], currentMsg := "",
    error := none }

/-- C6 witness: variant 1's setup effect empties the prior conversation even
when discovery fails, while variant 2's `connect` leaves it untouched. -/
theorem c6_conversation_reset_witness :
    (setupV1 c6StateV1 (Except.error ())).messages = [] ∧
    ((connectV2 emptyStore c6StateV2).2).messages = c6StateV2.messages :=
  ⟨(c6_conversation_reset c6StateV1 c6StateV2 emptyStore (Except.error ())
      { status := 0, contentType := "", body := none, rawText := "" } [] "k1").2.1
      (by decide),
   (c6_conversation_reset c6StateV1 c6StateV2 emptyStore (Except.error ())
      { status := 0, contentType := "", body := none, rawText := "" } [] "k1").2.2.1⟩

end OWUI
